import Mathlib

set_option maxRecDepth 100000

/-!
Verification of the `wrapper.h` header aggregator of the chimera-rs
repository.  The file is embedded verbatim as a list of source lines,
together with a small model of C preprocessor `include` directives,
and the structural properties of the spec are proved over it.
-/

namespace Chimera

/-- Form of a C preprocessor inclusion directive: angle-bracket search
path form or quoted local form. -/
inductive IncForm where
  | angle
  | quoted
deriving DecidableEq, BEq

/-- If `pat` is a leading segment of `l`, return the remainder of `l`
after it, else `none`. -/
def stripLead : List Char → List Char → Option (List Char)
  | [], rest => some rest
  | _ :: _, [] => none
  | p :: ps, c :: cs => if c = p then stripLead ps cs else none

/-- Succeeds when the line remainder consists of a path followed by
exactly the closing delimiter and nothing after; returns the path. -/
def splitClose (closeCh : Char) : List Char → Option (List Char)
  | [] => none
  | c :: cs =>
    if c = closeCh then
      (if cs = [] then some [] else none)
    else
      (splitClose closeCh cs).map (fun p => c :: p)

/-- Parse a line as a C `include` directive, returning its form
(angle-bracket or quoted) and the referenced header path. -/
def parseIncludeDirective (l : List Char) : Option (IncForm × List Char) :=
  match stripLead ("#include <".toList) l with
  | some rest => (splitClose '>' rest).map (fun p => (IncForm.angle, p))
  | none =>
    match stripLead ("#include \"".toList) l with
    | some rest => (splitClose '\"' rest).map (fun p => (IncForm.quoted, p))
    | none => none

/-- Drop leading horizontal whitespace from a line. -/
def trimLead (l : List Char) : List Char :=
  l.dropWhile (fun c => c = ' ' || c = '\t')

/-- A line holding no characters other than horizontal whitespace. -/
def isBlankLine (l : List Char) : Bool :=
  (trimLead l).isEmpty

/-- A line of block-comment text: after leading whitespace it opens a
block comment or continues one with a `*` column. -/
def isCommentText (l : List Char) : Bool :=
  (trimLead l).take 2 == "/*".toList || (trimLead l).take 1 == "*".toList

/-- Non-code text: a blank line or block-comment text. -/
def isNonCodeText (l : List Char) : Bool :=
  isBlankLine l || isCommentText l

/-- The sixteen textual lines of `src/wrapper.h`, verbatim.  The final
line carries no terminating newline in the file. -/
def wrapperLines : List String :=
  [ "/**",
    " * Header files re-exported from the MLIR C API for binding generation.",
    " */",
    "",
    "#include <mlir-c/Support.h>",
    "#include <mlir-c/IR.h>",
    "#include <mlir-c/Registration.h>",
    "#include <mlir-c/Transforms.h>",
    "#include <mlir-c/Pass.h>",
    "#include <mlir-c/IntegerSet.h>",
    "#include <mlir-c/ExecutionEngine.h>",
    "#include <mlir-c/Diagnostics.h>",
    "#include <mlir-c/Conversion.h>",
    "#include <mlir-c/BuiltinTypes.h>",
    "#include <mlir-c/BuiltinAttributes.h>",
    "#include <mlir-c/Dialect/LLVM.h>" ]

/-- The lines of `src/wrapper.h` as character lists. -/
def wrapperCharLines : List (List Char) :=
  wrapperLines.map String.toList

/-- Join lines with a newline between consecutive lines and no
terminating newline, recovering the byte content of the file. -/
def joinLines : List (List Char) → List Char
  | [] => []
  | [l] => l
  | l :: ls => l ++ '\n' :: joinLines ls

/-- The byte content of `src/wrapper.h` as a character list. -/
def wrapperFileChars : List Char :=
  joinLines wrapperCharLines

/-- All inclusion directives of `src/wrapper.h`, in file order, each
with its form and referenced path. -/
def wrapperDirectives : List (IncForm × List Char) :=
  wrapperCharLines.filterMap parseIncludeDirective

/-- The header paths referenced by the inclusion directives of
`src/wrapper.h`, in file order. -/
def wrapperIncludes : List (List Char) :=
  wrapperDirectives.map Prod.snd

/-- Lines of a file that are neither inclusion directives nor non-code
text: any declaration or other construct would appear here. -/
def declarationsIn (ls : List (List Char)) : List (List Char) :=
  ls.filter (fun l => !((parseIncludeDirective l).isSome || isNonCodeText l))

/-- Lines of `src/wrapper.h` that are neither inclusion directives nor
non-code text: any declaration or other construct would appear here. -/
def wrapperDeclarations : List (List Char) :=
  declarationsIn wrapperCharLines

/-- The twelve upstream header paths listed in spec section 6, in the
order of the spec listing. -/
def specSectionSixPaths : List String :=
  [ "mlir-c/Support.h",
    "mlir-c/IR.h",
    "mlir-c/Registration.h",
    "mlir-c/Transforms.h",
    "mlir-c/Pass.h",
    "mlir-c/IntegerSet.h",
    "mlir-c/ExecutionEngine.h",
    "mlir-c/Diagnostics.h",
    "mlir-c/Conversion.h",
    "mlir-c/BuiltinTypes.h",
    "mlir-c/BuiltinAttributes.h",
    "mlir-c/Dialect/LLVM.h" ]

/-- The spec section 6 paths as character lists. -/
def specSectionSixChars : List (List Char) :=
  specSectionSixPaths.map String.toList

/-- The source tree of the repository: its single file `wrapper.h`
with its lines. -/
def srcTree : List (String × List (List Char)) :=
  [("wrapper.h", wrapperCharLines)]

/-- A line opening a `pragma once` directive. -/
def isPragmaOnce (l : List Char) : Bool :=
  (trimLead l).take 12 == "#pragma once".toList

/-- A line opening an `ifndef` guard directive. -/
def isIfndefLine (l : List Char) : Bool :=
  (trimLead l).take 7 == "#ifndef".toList

/-- A line opening a `define` directive. -/
def isDefineLine (l : List Char) : Bool :=
  (trimLead l).take 7 == "#define".toList

/-- Claim C1: the set of header paths referenced by the inclusion
directives of `src/wrapper.h` is exactly the set of twelve paths listed
in spec section 6: every listed path is referenced by some directive,
and every directive references a listed path. -/
theorem wrapper_includes_match_spec_set :
    (∀ p ∈ specSectionSixChars, p ∈ wrapperIncludes) ∧
    (∀ q ∈ wrapperIncludes, q ∈ specSectionSixChars) := by
  decide

/-- Witness for claim C1: the spec path `mlir-c/Support.h` is indeed
referenced by an inclusion directive of the file. -/
theorem wrapper_includes_match_spec_set_witness :
    "mlir-c/Support.h".toList ∈ wrapperIncludes :=
  wrapper_includes_match_spec_set.1 ("mlir-c/Support.h".toList) (by decide)

/-- Claim C2, counterexample: it is false that the file is 15 lines
long with every line an inclusion directive — its first line is the
comment opener `/**`, which no directive parse accepts. -/
theorem wrapper_not_only_includes :
    ¬ (wrapperCharLines.length = 15 ∧
       wrapperCharLines.all (fun l => (parseIncludeDirective l).isSome) = true) := by
  decide

/-- Claim C2, amended: the file holds 15 newline characters (16
textual lines, the last unterminated); besides a leading block comment
and one blank line, its content is exactly twelve inclusion
directives, and every line is either a directive or non-code text. -/
theorem wrapper_line_structure :
    wrapperCharLines.length = 16 ∧
    wrapperFileChars.count '\n' = 15 ∧
    wrapperIncludes.length = 12 ∧
    wrapperCharLines.all
      (fun l => (parseIncludeDirective l).isSome || isNonCodeText l) = true := by
  decide

/-- Claim C3: `src/wrapper.h` introduces no declarations of its own —
the list of lines that are neither inclusion directives nor non-code
text is empty, and every line is a directive or non-code text. -/
theorem wrapper_no_declarations :
    wrapperDeclarations = [] ∧
    ∀ l ∈ wrapperCharLines,
      (parseIncludeDirective l).isSome = true ∨ isNonCodeText l = true := by
  decide

/-- Witness for claim C3: the first inclusion line of the file is
classified as an inclusion directive. -/
theorem wrapper_no_declarations_witness :
    (parseIncludeDirective ("#include <mlir-c/Support.h>".toList)).isSome = true ∨
    isNonCodeText ("#include <mlir-c/Support.h>".toList) = true :=
  wrapper_no_declarations.2 ("#include <mlir-c/Support.h>".toList) (by decide)

/-- Claim C4: the file defines no operations at all, so no operation
defined by this repository can fail: the list of declaration lines is
empty, and there exists no operation among them. -/
theorem wrapper_defines_no_failing_operation :
    wrapperDeclarations = [] ∧ ¬ ∃ op, op ∈ wrapperDeclarations := by
  have h : wrapperDeclarations = [] := by decide
  refine ⟨h, ?_⟩
  rintro ⟨op, hop⟩
  rw [h] at hop
  simp at hop

/-- Claim C5: the source tree holds exactly one artifact, the header
aggregator `wrapper.h`, and it contains no component with independent
responsibility (no declaration lines at all). -/
theorem src_tree_single_artifact :
    srcTree.length = 1 ∧
    srcTree.map Prod.fst = ["wrapper.h"] ∧
    srcTree.all (fun f => (declarationsIn f.2).isEmpty) = true := by
  decide

/-- Claim C6: the inclusion directives of `src/wrapper.h` reference
the twelve upstream header paths in exactly the sequence of the spec
section 6 listing, `Support.h` first through `Dialect/LLVM.h` last. -/
theorem wrapper_includes_in_spec_order :
    wrapperIncludes = specSectionSixChars := by
  decide

/-- Claim C7: there are twelve inclusion directives, and every one
uses the angle-bracket form with a referenced path beginning with the
segment `mlir-c/`. -/
theorem wrapper_includes_angle_form_mlir_c :
    wrapperDirectives.length = 12 ∧
    wrapperDirectives.all
      (fun d => d.1 == IncForm.angle && d.2.take 7 == "mlir-c/".toList) = true := by
  decide

/-- Claim C8: the twelve header paths referenced by the inclusion
directives of `src/wrapper.h` are pairwise distinct. -/
theorem wrapper_includes_pairwise_distinct :
    wrapperIncludes.Nodup := by
  decide

/-- Claim C9: no line of `src/wrapper.h` is a `pragma once` directive,
an `ifndef` guard opener, or a `define` directive, so the file carries
no inclusion guard of its own. -/
theorem wrapper_no_inclusion_guard :
    wrapperCharLines.all
      (fun l => !(isPragmaOnce l || isIfndefLine l || isDefineLine l)) = true := by
  decide

end Chimera
